import Mathlib

/-!
Verification of the ml-engine signal engine (technical analysis, pattern
detection, backtest replay) against its natural-language specification.

Shallow embedding conventions:
* Python/NumPy floats are modelled as exact rationals; decimal literals
  such as 0.5, 0.02, 0.95 are read as the exact rationals 1/2, 1/50, 19/20.
* IEEE NaN is modelled as Option.none in columns where pandas produces NaN
  (rolling warm-up rows, 0/0 divisions); a division whose float result
  would be +-infinity is likewise mapped to none, and the one place the
  code compares such a value (the 2% relative-difference test in the
  pattern detector) is guarded so that the comparison is false exactly as
  a NaN/inf float comparison would be.
* pandas DataFrames become lists of records; iloc[-1] / iloc[-2] become
  getLastD / dropLast.getLastD.
* Python ints stay natural numbers (the strength score is an int in the
  source); Python round(x, 2) becomes roundTo2.
* Exceptions become Except String; the broad except handlers of the source
  that return neutral fallbacks are modelled by the corresponding total
  branches.
-/

/-- Python round(x, 2) on an exact rational: round to an integer multiple of
1/100.  The source only ever observes this at values that are already exact
multiples of 1/100, where every rounding mode agrees. -/
def roundTo2 (q : ℚ) : ℚ := (round (q * 100) : ℤ) / 100

/-- One OHLCV candle (data_loader output row); prices and volume are
modelled as exact rationals, the timestamp as an integer index. -/
structure Candle where
  ts : ℤ
  open_p : ℚ
  high : ℚ
  low : ℚ
  close : ℚ
  volume : ℚ
deriving DecidableEq

/-- One row of the indicator frame produced by
TechnicalAnalyzer.calculate_all_indicators after dropna: every column is a
plain (non-NaN) number. -/
structure IndicatorRow where
  ts : ℤ
  close : ℚ
  rsi : ℚ
  macd : ℚ
  macd_signal : ℚ
  macd_histogram : ℚ
  bb_upper : ℚ
  bb_middle : ℚ
  bb_lower : ℚ
  ema_20 : ℚ
  ema_50 : ℚ
  volatility : ℚ
  bb_width : ℚ
  bb_position : ℚ
deriving DecidableEq

/-- Default row used only to give total meaning to iloc[-1] on the empty
frame; every call site is guarded by a length check in the source. -/
def defaultRow : IndicatorRow :=
  { ts := 0, close := 0, rsi := 0, macd := 0, macd_signal := 0,
    macd_histogram := 0, bb_upper := 0, bb_middle := 0, bb_lower := 0,
    ema_20 := 0, ema_50 := 0, volatility := 0, bb_width := 0, bb_position := 0 }

/-- The Signal record returned by TechnicalAnalyzer.generate_signal.  The
echoed indicator-snapshot dictionary of the source is omitted: it is a
rounded copy of the latest row and no claim reads it. -/
structure Signal where
  type : String
  confidence : ℚ
  reason : String
  recommendation : String
deriving DecidableEq

/-- TechnicalAnalyzer.is_choppy_market: latest volatility below 0.5 and
latest bb_width below the threshold (default 0.02). -/
def is_choppy_market (df : List IndicatorRow) (threshold : ℚ := 1/50) : Bool :=
  if df.length < 5 then false
  else
    let latest := df.getLastD defaultRow
    decide (latest.volatility < 1/2 ∧ latest.bb_width < threshold)

/-- TechnicalAnalyzer.are_indicators_aligned: at least 2 of 3 direction
sub-conditions must hold. -/
def are_indicators_aligned (df : List IndicatorRow) (signal_type : String) : Bool :=
  let latest := df.getLastD defaultRow
  let prev := if 1 < df.length then df.dropLast.getLastD defaultRow else latest
  let rsi := latest.rsi
  let macd_hist := latest.macd_histogram
  let price := latest.close
  let ema_20 := latest.ema_20
  let ema_50 := latest.ema_50
  if signal_type = "LONG" then
    let a1 : ℕ := if rsi < 70 ∧ rsi > 40 then 1 else 0
    let a2 : ℕ := if macd_hist > 0 ∧ macd_hist > prev.macd_histogram then 1 else 0
    let a3 : ℕ := if price > ema_20 ∧ ema_20 > ema_50 then 1 else 0
    decide (a1 + a2 + a3 ≥ 2)
  else if signal_type = "SHORT" then
    let a1 : ℕ := if rsi > 30 ∧ rsi < 60 then 1 else 0
    let a2 : ℕ := if macd_hist < 0 ∧ macd_hist < prev.macd_histogram then 1 else 0
    let a3 : ℕ := if price < ema_20 ∧ ema_20 < ema_50 then 1 else 0
    decide (a1 + a2 + a3 ≥ 2)
  else false

/-- TechnicalAnalyzer.calculate_signal_strength: weighted integer score,
capped at 100.  The source accumulates a Python int, so the result is a
natural number. -/
def calculate_signal_strength (df : List IndicatorRow) (signal_type : String) : ℕ :=
  let latest := df.getLastD defaultRow
  let prev := if 1 < df.length then df.dropLast.getLastD defaultRow else latest
  let rsi := latest.rsi
  let macd := latest.macd
  let macd_signal := latest.macd_signal
  let macd_hist := latest.macd_histogram
  let price := latest.close
  let ema_20 := latest.ema_20
  let ema_50 := latest.ema_50
  let strength : ℕ :=
    if signal_type = "LONG" then
      (if rsi < 30 then 20 else if rsi < 50 then 10 else 0)
      + (if macd > macd_signal ∧ macd_hist > prev.macd_histogram then 25
         else if macd > macd_signal then 12 else 0)
      + (if price > ema_20 then 15 else 0)
      + (if ema_20 > ema_50 then (if price > ema_20 then 30 else 15) else 0)
    else if signal_type = "SHORT" then
      (if rsi > 70 then 20 else if rsi > 50 then 10 else 0)
      + (if macd < macd_signal ∧ macd_hist < prev.macd_histogram then 25
         else if macd < macd_signal then 12 else 0)
      + (if price < ema_20 then 15 else 0)
      + (if ema_20 < ema_50 then (if price < ema_20 then 30 else 15) else 0)
    else 0
  min strength 100

/-- The NEUTRAL Signal returned when the input frame is missing or has
fewer than 10 rows. -/
def insufficientSignal : Signal :=
  { type := "NEUTRAL", confidence := 0, reason := "Insufficient data",
    recommendation := "Insufficient data for analysis" }

/-- Recommendation text for an emitted directional signal.  The numeric
interpolations of the source reason strings are dropped (no claim reads
them). -/
def strengthLevel (confidence : ℕ) : String :=
  if confidence ≥ 80 then "Very Strong" else if confidence ≥ 70 then "Strong" else "Moderate"

/-- TechnicalAnalyzer.generate_signal: insufficient-data guard, choppy
guard, potential gates, alignment, strength threshold 60.  Note that when a
candidate direction passes the potential and alignment gates but its
strength is below 60, the source leaves signal_type NEUTRAL while the
already-assigned confidence (the sub-60 strength) is returned unchanged. -/
def generate_signal (odf : Option (List IndicatorRow)) : Signal :=
  match odf with
  | none => insufficientSignal
  | some df =>
    if df.length < 10 then insufficientSignal
    else
      let latest := df.getLastD defaultRow
      let rsi := latest.rsi
      let macd_hist := latest.macd_histogram
      let price := latest.close
      let ema_20 := latest.ema_20
      if is_choppy_market df then
        { type := "NEUTRAL", confidence := 0,
          reason := "Market too choppy - consolidating",
          recommendation := "Market is consolidating. Wait for breakout." }
      else
        let long_potential := rsi < 50 ∧ macd_hist > 0 ∧ price ≥ ema_20
        let short_potential := rsi > 50 ∧ macd_hist < 0 ∧ price ≤ ema_20
        if long_potential ∧ are_indicators_aligned df "LONG" then
          let confidence := calculate_signal_strength df "LONG"
          if confidence ≥ 60 then
            { type := "LONG", confidence := (confidence : ℚ),
              reason := "Strong buy setup",
              recommendation := strengthLevel confidence ++ " LONG signal. Strong buy setup" }
          else
            { type := "NEUTRAL", confidence := (confidence : ℚ),
              reason := "Indicators not aligned or volatility too low",
              recommendation := "Waiting for clearer setup" }
        else if short_potential ∧ are_indicators_aligned df "SHORT" then
          let confidence := calculate_signal_strength df "SHORT"
          if confidence ≥ 60 then
            { type := "SHORT", confidence := (confidence : ℚ),
              reason := "Strong sell setup",
              recommendation := strengthLevel confidence ++ " SHORT signal. Strong sell setup" }
          else
            { type := "NEUTRAL", confidence := (confidence : ℚ),
              reason := "Indicators not aligned or volatility too low",
              recommendation := "Waiting for clearer setup" }
        else
          { type := "NEUTRAL", confidence := 0,
            reason := "Indicators not aligned or volatility too low",
            recommendation := "Waiting for clearer setup" }

/-- A detected chart pattern (PatternDetector output element). -/
structure Pattern where
  type : String
  signal : String
  strength : String
deriving DecidableEq

/-- pandas DataFrame.tail(20): the most recent 20 candles (all of them when
fewer than 20 are present). -/
def tail20 (df : List Candle) : List Candle := df.drop (df.length - 20)

/-- The 2% relative-difference test shared by the double-bottom and
double-top detectors: abs(a - b) / a < 0.02.  When a is 0 the float
division yields inf or NaN and the comparison is false; that is encoded by
the explicit zero guard. -/
def relDiffBelow (a b : ℚ) : Bool :=
  if a = 0 then false else decide (|a - b| / a < 1/50)

/-- The two smallest values of the ascending-sorted list (the values at
argsort(lows)[:2]) fed to the 2% test, the smallest as denominator; false
when fewer than two values exist. -/
def twoLowestTest : List ℚ → Bool
  | l1 :: l2 :: _ => relDiffBelow l1 l2
  | _ => false

/-- The two largest values, read from the reversed ascending-sorted list
(the values at argsort(highs)[-2:]: high1 the second-largest, high2 the
largest) fed to the 2% test, the second-largest as denominator; false when
fewer than two values exist. -/
def twoHighestTest : List ℚ → Bool
  | h2 :: h1 :: _ => relDiffBelow h1 h2
  | _ => false

/-- PatternDetector._is_double_bottom: the 2% test on the two lowest lows
of the last 20 candles. -/
def is_double_bottom (df : List Candle) : Bool :=
  twoLowestTest (((tail20 df).map Candle.low).insertionSort (· ≤ ·))

/-- PatternDetector._is_double_top: the 2% test on the two highest highs of
the last 20 candles. -/
def is_double_top (df : List Candle) : Bool :=
  twoHighestTest ((((tail20 df).map Candle.high).insertionSort (· ≤ ·)).reverse)

/-- Slope of the degree-1 least-squares fit of prices against index
(np.polyfit(x, prices, 1)[0]), as an exact rational.  The degenerate
denominator (fewer than 2 points) is never reached from detect_patterns,
which guarantees 20 points. -/
def polyfitSlope (prices : List ℚ) : ℚ :=
  let n : ℚ := prices.length
  let xs : List ℚ := (List.range prices.length).map (fun i => (i : ℚ))
  let sx := xs.sum
  let sy := prices.sum
  let sxx := (xs.map (fun x => x * x)).sum
  let sxy := (List.zipWith (fun x y => x * y) xs prices).sum
  (n * sxy - sx * sy) / (n * sxx - sx * sx)

/-- PatternDetector._detect_trend: linear-regression slope and first-to-last
percentage change over the last 20 candles.  The division by the first
close only matters for positive prices (the data model); no claim touches
the zero corner. -/
def detectTrend (df : List Candle) : Option Pattern :=
  let prices := (tail20 df).map Candle.close
  let slope := polyfitSlope prices
  let first := prices.headD 0
  let lastP := prices.getLastD 0
  let price_change := (lastP - first) / first * 100
  if slope > 0 ∧ price_change > 2 then some { type := "uptrend", signal := "LONG", strength := "medium" }
  else if slope < 0 ∧ price_change < -2 then some { type := "downtrend", signal := "SHORT", strength := "medium" }
  else none

/-- PatternDetector.detect_patterns: silently returns the empty list for a
missing frame or fewer than 20 candles, otherwise collects double bottom,
double top and trend patterns. -/
def detect_patterns (odf : Option (List Candle)) : List Pattern :=
  match odf with
  | none => []
  | some df =>
    if df.length < 20 then []
    else
      (if is_double_bottom df then [{ type := "double_bottom", signal := "LONG", strength := "high" }] else [])
      ++ (if is_double_top df then [{ type := "double_top", signal := "SHORT", strength := "high" }] else [])
      ++ (match detectTrend df with | some p => [p] | none => [])

/-- Modelled from the spec: the error taxonomy requires the pattern
computation on fewer than 20 candles to surface an explicit
InsufficientData failure to the caller; the code of
PatternDetector.detect_patterns has no such error path, so this definition
exists only to be compared with it. -/
def specDetectPatterns (df : List Candle) : Except String (List Pattern) :=
  if df.length < 20 then Except.error "InsufficientData"
  else Except.ok (detect_patterns (some df))

/-- Additive mirror of a candle about the zero price level: the natural
reading of mirrored price data in which the low array plays the role of the
high array and vice versa (negation reverses the price order). -/
def negMirror (c : Candle) : Candle :=
  { c with low := -c.high, high := -c.low, open_p := -c.open_p, close := -c.close }

/-- Multiplicative mirror of a candle: reciprocal prices with the low and
high roles swapped.  On positive prices this reverses the price order and
preserves relative differences, the invariance the 2% test actually has. -/
def recipMirror (c : Candle) : Candle :=
  { c with low := 1 / c.high, high := 1 / c.low, open_p := 1 / c.open_p, close := 1 / c.close }

/-- pandas Series.diff(): NaN at index 0, successive differences after. -/
def diffL (l : List ℚ) : List (Option ℚ) :=
  none :: List.zipWith (fun b a => some (b - a)) l.tail l

/-- pandas Series.pct_change(): NaN at index 0, relative change after.  A
zero previous value gives an infinite float in the source; that corner is
mapped to none and is unreachable for the positive prices of the data
model. -/
def pctChange (l : List ℚ) : List (Option ℚ) :=
  none :: List.zipWith (fun b a => if a = 0 then none else some ((b - a) / a)) l.tail l

/-- Collects a window of values, failing if any entry is NaN. -/
def allSome : List (Option ℚ) → Option (List ℚ)
  | [] => some []
  | none :: _ => none
  | some x :: xs => (allSome xs).map (fun vs => x :: vs)

/-- pandas Series.rolling(window=w).agg with the default min_periods = w:
the value at index i is NaN unless the trailing window of w entries exists
and is NaN-free, in which case it is f applied to the window. -/
def rollingApply (f : List ℚ → ℚ) (w : ℕ) (l : List (Option ℚ)) : List (Option ℚ) :=
  (List.range l.length).map (fun i =>
    if i + 1 < w then none
    else
      match allSome ((l.drop (i + 1 - w)).take w) with
      | some vs => some (f vs)
      | none => none)

/-- Arithmetic mean of a window (rolling mean divides by the window
length). -/
def meanL (vs : List ℚ) : ℚ := vs.sum / vs.length

/-- Newton iteration for the integer square root, with explicit fuel so
that it reduces structurally: from iterate x the next iterate is
(x + n / x) / 2 and the sequence stops as soon as it no longer decreases,
which yields the floor square root whenever the fuel exceeds the number of
iterations needed (about two times the bit length of n). -/
def isqrtGo : ℕ → ℕ → ℕ → ℕ
  | 0, _, x => x
  | fuel + 1, n, x =>
    let y := (x + n / x) / 2
    if y < x then isqrtGo fuel n y else x

/-- Integer square root via Newton iteration; 128 fuel steps make it exact
for every input below 2 to the 64th, far beyond anything evaluated here. -/
def isqrt (n : ℕ) : ℕ := if n ≤ 1 then n else isqrtGo 128 n n

/-- Square root of a rational, exact when numerator and denominator of the
reduced fraction are perfect squares (in particular ratSqrt 0 = 0, the only
value any theorem here depends on); otherwise some rational near the true
root, standing in for the inexact float square root of the source. -/
def ratSqrt (q : ℚ) : ℚ := (isqrt q.num.toNat : ℚ) / (isqrt q.den : ℚ)

/-- Sample standard deviation of a window (pandas rolling std, ddof = 1). -/
def sampleStd (vs : List ℚ) : ℚ :=
  let m := meanL vs
  ratSqrt ((vs.map (fun x => (x - m) * (x - m))).sum / ((vs.length : ℚ) - 1))

/-- pandas ewm(span, adjust=False).mean() recursion after the seed. -/
def ewmFrom (a : ℚ) (prev : ℚ) : List ℚ → List ℚ
  | [] => []
  | x :: xs =>
    let y := (1 - a) * prev + a * x
    y :: ewmFrom a y xs

/-- pandas ewm(span=s, adjust=False).mean(): seeded by the first value,
smoothing factor 2 / (s + 1). -/
def ewm (span : ℚ) : List ℚ → List ℚ
  | [] => []
  | x :: xs => x :: ewmFrom (2 / (span + 1)) x xs

/-- TechnicalAnalyzer.calculate_rsi pointwise combination of the rolled
average gain and loss: NaN while either average is NaN; with zero average
loss the float ratio is NaN (when the gain is also 0) or infinite (RSI
collapses to 100); otherwise 100 - 100/(1 + gain/loss). -/
def rsiPoint (g l : Option ℚ) : Option ℚ :=
  match g, l with
  | some g, some l =>
    if l = 0 then (if g = 0 then none else some 100)
    else some (100 - 100 / (1 + g / l))
  | _, _ => none

/-- TechnicalAnalyzer.calculate_rsi: rolling simple means of the positive
and negative deltas.  Series.where replaces entries failing the condition
(including the NaN head of diff, which fails every comparison) by 0, so the
gain and loss series are NaN-free. -/
def calculate_rsi (close : List ℚ) (period : ℕ) : List (Option ℚ) :=
  let delta := diffL close
  let gain := delta.map (fun d => match d with | some x => if x > 0 then x else 0 | none => 0)
  let loss := delta.map (fun d => match d with | some x => if x < 0 then -x else 0 | none => 0)
  let avg_gain := rollingApply meanL period (gain.map some)
  let avg_loss := rollingApply meanL period (loss.map some)
  List.zipWith rsiPoint avg_gain avg_loss

/-- TechnicalAnalyzer.calculate_macd: MACD line, signal line, histogram
(all NaN-free since ewm needs no warm-up). -/
def calculate_macd (close : List ℚ) (fast slow signal : ℚ) : List ℚ × List ℚ × List ℚ :=
  let exp1 := ewm fast close
  let exp2 := ewm slow close
  let macd := List.zipWith (fun a b => a - b) exp1 exp2
  let macd_signal := ewm signal macd
  let macd_histogram := List.zipWith (fun a b => a - b) macd macd_signal
  (macd, macd_signal, macd_histogram)

/-- Pointwise addition where NaN absorbs. -/
def optAdd (a b : Option ℚ) : Option ℚ :=
  match a, b with
  | some a, some b => some (a + b)
  | _, _ => none

/-- Pointwise subtraction where NaN absorbs. -/
def optSub (a b : Option ℚ) : Option ℚ :=
  match a, b with
  | some a, some b => some (a - b)
  | _, _ => none

/-- Pointwise division where NaN absorbs; a zero denominator (NaN or
infinite float result) is mapped to NaN.  Of the claims only the 0/0 case
(bb_position of a constant series) is ever exercised. -/
def optDiv (a b : Option ℚ) : Option ℚ :=
  match a, b with
  | some a, some b => if b = 0 then none else some (a / b)
  | _, _ => none

/-- TechnicalAnalyzer.calculate_bollinger_bands: rolling mean plus/minus
std_dev times the rolling sample standard deviation. -/
def calculate_bollinger_bands (close : List ℚ) (period : ℕ) (std_dev : ℚ) :
    List (Option ℚ) × List (Option ℚ) × List (Option ℚ) :=
  let sma := rollingApply meanL period (close.map some)
  let std := rollingApply sampleStd period (close.map some)
  let bb_upper := List.zipWith (fun s d => optAdd s (d.map (std_dev * ·))) sma std
  let bb_lower := List.zipWith (fun s d => optSub s (d.map (std_dev * ·))) sma std
  (bb_upper, sma, bb_lower)

/-- TechnicalAnalyzer.calculate_volatility: rolling sample std of
percentage returns, times 100. -/
def calculate_volatility (close : List ℚ) (period : ℕ) : List (Option ℚ) :=
  (rollingApply sampleStd period (pctChange close)).map (Option.map (· * 100))

/-- Assembles row i of the frame: some row only when every computed column
is non-NaN at i (the dropna of the source keeps exactly those rows). -/
def buildRow (candles : List Candle)
    (rsiC : List (Option ℚ)) (macdC macdS macdH : List ℚ)
    (bbU bbM bbL : List (Option ℚ)) (e20 e50 : List ℚ)
    (volC bbW bbP : List (Option ℚ)) (i : ℕ) : Option IndicatorRow :=
  match candles[i]?, rsiC[i]?, macdC[i]?, macdS[i]?, macdH[i]?, bbU[i]?, bbM[i]?, bbL[i]?,
        e20[i]?, e50[i]?, volC[i]?, bbW[i]?, bbP[i]? with
  | some c, some (some rsi), some macd, some ms, some mh, some (some bu), some (some bm),
    some (some bl), some ema20, some ema50, some (some vol), some (some bw), some (some bp) =>
      some { ts := c.ts, close := c.close, rsi := rsi, macd := macd, macd_signal := ms,
             macd_histogram := mh, bb_upper := bu, bb_middle := bm, bb_lower := bl,
             ema_20 := ema20, ema_50 := ema50, volatility := vol, bb_width := bw,
             bb_position := bp }
  | _, _, _, _, _, _, _, _, _, _, _, _, _ => none

/-- TechnicalAnalyzer.calculate_all_indicators: fails for fewer than 50
candles, computes every indicator column with the configured periods
(RSI 14, MACD 12/26/9, Bollinger 20/2, EMA 20 and 50, volatility 20),
derives bb_width and bb_position, drops every row containing a NaN, and
fails when nothing remains. -/
def calculate_all_indicators (candles : List Candle) : Except String (List IndicatorRow) :=
  if candles.length < 50 then Except.error "Insufficient data: fewer than 50 candles"
  else
    let close := candles.map Candle.close
    let rsiC := calculate_rsi close 14
    let macds := calculate_macd close 12 26 9
    let bbs := calculate_bollinger_bands close 20 2
    let e20 := ewm 20 close
    let e50 := ewm 50 close
    let volC := calculate_volatility close 20
    let bbW := List.zipWith (fun ud m => optDiv ud m) (List.zipWith optSub bbs.1 bbs.2.2) bbs.2.1
    let bbP := List.zipWith (fun cl ld => optDiv cl ld)
      (List.zipWith (fun c lo => optSub (some c) lo) close bbs.2.2)
      (List.zipWith optSub bbs.1 bbs.2.2)
    let rows := (List.range candles.length).filterMap
      (buildRow candles rsiC macds.1 macds.2.1 macds.2.2 bbs.1 bbs.2.1 bbs.2.2 e20 e50 volC bbW bbP)
    if rows.length = 0 then Except.error "All data became NaN after indicator calculation"
    else Except.ok rows

/-- A backtest trade record (a dict in the source; exit fields are added
only when the trade is closed). -/
structure Trade where
  type : String
  entry : ℚ
  entry_time : ℤ
  confidence : ℚ
  exit : Option ℚ := none
  exit_time : Option ℤ := none
  pnl_percent : Option ℚ := none
deriving DecidableEq

/-- config.CONFIDENCE_THRESHOLD with its default value 70. -/
def CONFIDENCE_THRESHOLD : ℚ := 70

/-- The mutable loop state of the backtest in app.py: the position flag,
the entry price of the open position, and the accumulated trade list. -/
structure BTState where
  in_position : Bool
  entry_price : ℚ
  trades : List Trade
deriving DecidableEq

/-- The trades[-1] update on exit: closes the last trade with the exit
price, exit time, and pnl_percent = round((exit - entry)/entry*100, 2).
The loop only closes while in a position, which it only enters after
appending a trade, so the list is never empty there. -/
def closeLast (trades : List Trade) (row : IndicatorRow) (entry_price : ℚ) : List Trade :=
  match trades.getLast? with
  | none => trades
  | some t =>
      trades.dropLast ++
        [{ t with exit := some row.close, exit_time := some row.ts,
                  pnl_percent := some (roundTo2 ((row.close - entry_price) / entry_price * 100)) }]

/-- One iteration of the backtest position state machine (the body of the
loop in the backtest endpoint): open on a LONG signal at or above the
confidence threshold while flat; while in a position, exit on a SHORT
signal or when the close falls strictly below 95% of the entry price. -/
def backtestStep (sig : Signal) (row : IndicatorRow) (st : BTState) : BTState :=
  if st.in_position = false ∧ sig.type = "LONG" ∧ sig.confidence ≥ CONFIDENCE_THRESHOLD then
    { in_position := true, entry_price := row.close,
      trades := st.trades ++
        [{ type := "LONG", entry := row.close, entry_time := row.ts,
           confidence := sig.confidence }] }
  else if st.in_position then
    if sig.type = "SHORT" ∨ row.close < st.entry_price * (95/100) then
      { in_position := false, entry_price := st.entry_price,
        trades := closeLast st.trades row st.entry_price }
    else st
  else st

/-- One indexed iteration of the backtest loop: recompute the signal on
the prefix of the first i+1 rows of the frame and feed the state machine
with row i.  An out-of-range index (never reached from backtestLoop)
leaves the state unchanged. -/
def backtestLoopStep (dfI : List IndicatorRow) (st : BTState) (i : ℕ) : BTState :=
  match dfI[i]? with
  | none => st
  | some row => backtestStep (generate_signal (some (dfI.take (i + 1)))) row st

/-- The backtest loop: for each index i from 50 to the end of the
indicator frame, recompute the signal on the growing prefix and feed the
state machine; returns the accumulated trade list. -/
def backtestLoop (dfI : List IndicatorRow) : List Trade :=
  ((List.range' 50 (dfI.length - 50)).foldl (backtestLoopStep dfI)
    { in_position := false, entry_price := 0, trades := [] }).trades

/-- A trade is closed when its pnl_percent field is present. -/
def isClosed (t : Trade) : Bool := t.pnl_percent.isSome

/-- Winning: closed with strictly positive pnl. -/
def isWinning (t : Trade) : Bool :=
  match t.pnl_percent with
  | some p => decide (p > 0)
  | none => false

/-- Losing: closed with nonpositive pnl. -/
def isLosing (t : Trade) : Bool :=
  match t.pnl_percent with
  | some p => decide (p ≤ 0)
  | none => false

/-- The aggregate record returned by the backtest endpoint. -/
structure BTResult where
  total_trades : ℕ
  winning_trades : ℕ
  losing_trades : ℕ
  win_rate : ℚ
  total_pnl_percent : ℚ
  trades : List Trade
deriving DecidableEq

/-- The statistics block of the backtest endpoint: closed-trade counts,
win rate (0 when no trade closed), total pnl summed with 0 for open trades,
and the last 10 trades. -/
def backtestStats (trades : List Trade) : BTResult :=
  let winning := trades.filter isWinning
  let losing := trades.filter isLosing
  let total := (trades.filter isClosed).length
  let win_rate : ℚ := if total > 0 then (winning.length : ℚ) / (total : ℚ) * 100 else 0
  let total_pnl := (trades.map (fun t => t.pnl_percent.getD 0)).sum
  { total_trades := total, winning_trades := winning.length,
    losing_trades := losing.length, win_rate := roundTo2 win_rate,
    total_pnl_percent := roundTo2 total_pnl,
    trades := trades.drop (trades.length - 10) }

/-- The backtest endpoint: requires at least 100 candles, computes the
indicator frame (propagating its failure), runs the loop, and aggregates. -/
def backtest (candles : List Candle) : Except String BTResult :=
  if candles.length < 100 then
    Except.error "Insufficient data for backtest. Need at least 100 candles."
  else
    match calculate_all_indicators candles with
    | Except.error e => Except.error e
    | Except.ok dfI => Except.ok (backtestStats (backtestLoop dfI))

/-! ## Shared helper lemmas -/

/-- The weighted sum of strength components never exceeds 90 (20 + 25 + 15
+ 30), so the cap at 100 is never the binding bound. -/
theorem calculate_signal_strength_le_ninety (df : List IndicatorRow) (signal_type : String) :
    calculate_signal_strength df signal_type ≤ 90 := by
  simp only [calculate_signal_strength]
  refine le_trans (Nat.min_le_left _ _) ?_
  split_ifs <;> omega

/-! ## Claim theorems: Signal Scorer -/

/-- C8: for every indicator frame and every direction string, the strength
score of calculate_signal_strength lies in the interval from 0 to 100. -/
theorem strength_bounded (df : List IndicatorRow) (signal_type : String) :
    0 ≤ calculate_signal_strength df signal_type ∧
      calculate_signal_strength df signal_type ≤ 100 :=
  ⟨Nat.zero_le _, by simp only [calculate_signal_strength]; exact Nat.min_le_right _ _⟩

/-- C2: on a frame of at least 10 rows whose latest row has volatility
below 0.5 and bb_width below 0.02, generate_signal returns NEUTRAL with
confidence 0, whatever the RSI, MACD and EMA columns contain. -/
theorem choppy_guard_dominates (df : List IndicatorRow) (h10 : 10 ≤ df.length)
    (hv : (df.getLastD defaultRow).volatility < 1/2)
    (hb : (df.getLastD defaultRow).bb_width < 1/50) :
    (generate_signal (some df)).type = "NEUTRAL" ∧
      (generate_signal (some df)).confidence = 0 := by
  have hch : is_choppy_market df = true := by
    unfold is_choppy_market
    rw [if_neg (by omega)]
    exact decide_eq_true ⟨hv, hb⟩
  have hnl : ¬ df.length < 10 := by omega
  simp only [generate_signal]
  rw [if_neg hnl, if_pos hch]
  exact ⟨rfl, rfl⟩

/-- Witness for C2: a concrete 10-row frame with zero volatility and zero
band width is rejected as choppy. -/
def w2df : List IndicatorRow := List.replicate 10 defaultRow

theorem choppy_guard_dominates_witness :
    (10 ≤ w2df.length ∧ (w2df.getLastD defaultRow).volatility < 1/2 ∧
        (w2df.getLastD defaultRow).bb_width < 1/50) ∧
      (generate_signal (some w2df)).type = "NEUTRAL" ∧
        (generate_signal (some w2df)).confidence = 0 :=
  ⟨⟨by with_unfolding_all rfl,
    of_decide_eq_true (by with_unfolding_all rfl),
    of_decide_eq_true (by with_unfolding_all rfl)⟩,
   choppy_guard_dominates w2df (by with_unfolding_all rfl)
     (of_decide_eq_true (by with_unfolding_all rfl))
     (of_decide_eq_true (by with_unfolding_all rfl))⟩

/-- C10: at its boundary (missing frame or fewer than 10 rows) the scorer
returns the structured NEUTRAL record with confidence 0; the embedding is a
total function, mirroring the catch-all handler of the source. -/
theorem scorer_total_at_boundary (odf : Option (List IndicatorRow))
    (h : odf = none ∨ ∃ df, odf = some df ∧ df.length < 10) :
    (generate_signal odf).type = "NEUTRAL" ∧ (generate_signal odf).confidence = 0 := by
  rcases h with rfl | ⟨df, rfl, hlen⟩
  · exact ⟨rfl, rfl⟩
  · simp only [generate_signal]
    rw [if_pos hlen]
    exact ⟨rfl, rfl⟩

theorem scorer_total_at_boundary_witness :
    ((none : Option (List IndicatorRow)) = none ∨
        ∃ df, (none : Option (List IndicatorRow)) = some df ∧ df.length < 10) ∧
      (generate_signal none).type = "NEUTRAL" ∧ (generate_signal none).confidence = 0 :=
  ⟨Or.inl rfl, scorer_total_at_boundary none (Or.inl rfl)⟩

/-- C1 counterexample frame: ten rows, not choppy, whose latest row passes
the LONG potential and alignment gates with strength 10 + 25 = 35 below the
emission threshold, so the NEUTRAL result keeps confidence 35. -/
def c1last : IndicatorRow :=
  { ts := 9, close := 100, rsi := 45, macd := 1, macd_signal := 0, macd_histogram := 1,
    bb_upper := 110, bb_middle := 100, bb_lower := 90, ema_20 := 100, ema_50 := 100,
    volatility := 1, bb_width := 1/5, bb_position := 1/2 }

def c1df : List IndicatorRow := List.replicate 9 defaultRow ++ [c1last]

/-- C1 counterexample: a NEUTRAL signal whose confidence is 35, not 0: the
sub-threshold strength of an aligned setup is returned unchanged. -/
theorem neutral_nonzero_confidence_counterexample :
    (generate_signal (some c1df)).type = "NEUTRAL" ∧
      (generate_signal (some c1df)).confidence = 35 ∧
      (generate_signal (some c1df)).confidence ≠ 0 :=
  ⟨by with_unfolding_all rfl, by with_unfolding_all rfl,
   of_decide_eq_true (by with_unfolding_all rfl)⟩

/-- C1 (amended): a NEUTRAL signal always has confidence below 60; it is 0
when the data minimum is unmet or the choppy guard fired (and when the
frame is missing), but an aligned sub-threshold setup leaves its nonzero
strength as the confidence. -/
theorem neutral_confidence_sub_threshold (odf : Option (List IndicatorRow))
    (h : (generate_signal odf).type = "NEUTRAL") :
    (generate_signal odf).confidence < 60 ∧
      (∀ df, odf = some df → df.length < 10 ∨ is_choppy_market df = true →
        (generate_signal odf).confidence = 0) ∧
      (odf = none → (generate_signal odf).confidence = 0) := by
  refine ⟨?_, ?_, ?_⟩
  · rcases odf with _ | df
    · norm_num [generate_signal, insufficientSignal]
    · simp only [generate_signal] at h ⊢
      split_ifs at h ⊢
      · norm_num [insufficientSignal]
      · norm_num
      · simp at h
      · rename_i hge; dsimp only; exact_mod_cast Nat.lt_of_not_le hge
      · simp at h
      · rename_i hge; dsimp only; exact_mod_cast Nat.lt_of_not_le hge
      · norm_num
  · rintro df rfl hor
    simp only [generate_signal]
    by_cases hl : df.length < 10
    · rw [if_pos hl]
      rfl
    · rw [if_neg hl, if_pos (hor.resolve_left hl)]
  · rintro rfl; rfl

theorem neutral_confidence_sub_threshold_witness :
    (generate_signal (some c1df)).type = "NEUTRAL" ∧
      ((generate_signal (some c1df)).confidence < 60 ∧
        (∀ df, some c1df = some df → df.length < 10 ∨ is_choppy_market df = true →
          (generate_signal (some c1df)).confidence = 0) ∧
        (some c1df = none → (generate_signal (some c1df)).confidence = 0)) :=
  ⟨by with_unfolding_all rfl,
   neutral_confidence_sub_threshold (some c1df) (by with_unfolding_all rfl)⟩

/-- C9: whenever the scorer emits a directional signal, its confidence lies
between 60 (the emission gate) and 90 (the maximal weighted sum
20 + 25 + 15 + 30). -/
theorem directional_confidence_range (odf : Option (List IndicatorRow))
    (h : (generate_signal odf).type = "LONG" ∨ (generate_signal odf).type = "SHORT") :
    60 ≤ (generate_signal odf).confidence ∧ (generate_signal odf).confidence ≤ 90 := by
  rcases odf with _ | df
  · exact absurd h (by decide)
  · simp only [generate_signal] at h ⊢
    split_ifs at h ⊢
    · simp [insufficientSignal] at h
    · simp at h
    · rename_i hge
      dsimp only
      exact ⟨by exact_mod_cast hge, by exact_mod_cast calculate_signal_strength_le_ninety df "LONG"⟩
    · simp at h
    · rename_i hge
      dsimp only
      exact ⟨by exact_mod_cast hge, by exact_mod_cast calculate_signal_strength_le_ninety df "SHORT"⟩
    · simp at h
    · simp at h

/-- Witness frame for C9: a LONG setup of strength 10 + 25 + 15 + 30 = 80. -/
def w9last : IndicatorRow :=
  { ts := 9, close := 105, rsi := 45, macd := 1, macd_signal := 0, macd_histogram := 1,
    bb_upper := 110, bb_middle := 100, bb_lower := 90, ema_20 := 100, ema_50 := 95,
    volatility := 1, bb_width := 1/5, bb_position := 3/4 }

def w9df : List IndicatorRow := List.replicate 9 defaultRow ++ [w9last]

theorem directional_confidence_range_witness :
    ((generate_signal (some w9df)).type = "LONG" ∨
        (generate_signal (some w9df)).type = "SHORT") ∧
      60 ≤ (generate_signal (some w9df)).confidence ∧
        (generate_signal (some w9df)).confidence ≤ 90 :=
  ⟨Or.inl (by with_unfolding_all rfl),
   directional_confidence_range (some w9df) (Or.inl (by with_unfolding_all rfl))⟩

/-! ## Claim theorems: Backtest state machine (C4) -/

/-- C4 counterexample state: an open LONG position entered at 100. -/
def c4sig : Signal :=
  { type := "NEUTRAL", confidence := 0, reason := "t", recommendation := "t" }

def c4row : IndicatorRow := { defaultRow with ts := 60, close := 95 }

def c4trade : Trade := { type := "LONG", entry := 100, entry_time := 0, confidence := 70 }

def c4state : BTState := { in_position := true, entry_price := 100, trades := [c4trade] }

/-- C4 counterexample: with the close exactly equal to 0.95 times the
entry price and a non-SHORT signal, the position stays open and the trade
list is unchanged: the stop-loss comparison is strict. -/
theorem stop_loss_boundary_counterexample :
    c4row.close = c4state.entry_price * (95/100) ∧ c4sig.type ≠ "SHORT" ∧
      (backtestStep c4sig c4row c4state).in_position = true ∧
      (backtestStep c4sig c4row c4state).trades = [c4trade] :=
  ⟨of_decide_eq_true (by with_unfolding_all rfl),
   of_decide_eq_true (by with_unfolding_all rfl),
   by with_unfolding_all rfl, by with_unfolding_all rfl⟩

/-- C4 (amended): while a position is open, the step closes it exactly
when the signal is SHORT or the close is strictly below 0.95 times the
entry price (a close exactly at the threshold does not trigger the stop),
and on exit the last trade is closed with the exit price, time and rounded
pnl percentage. -/
theorem backtest_exit_characterization (sig : Signal) (row : IndicatorRow) (st : BTState)
    (h : st.in_position = true) :
    ((backtestStep sig row st).in_position = false ↔
      sig.type = "SHORT" ∨ row.close < st.entry_price * (95/100)) ∧
    (sig.type = "SHORT" ∨ row.close < st.entry_price * (95/100) →
      (backtestStep sig row st).trades = closeLast st.trades row st.entry_price) := by
  unfold backtestStep
  rw [if_neg (by simp [h])]
  rw [if_pos h]
  by_cases hx : sig.type = "SHORT" ∨ row.close < st.entry_price * (95/100)
  · rw [if_pos hx]
    exact ⟨by simp [hx], fun _ => rfl⟩
  · rw [if_neg hx]
    exact ⟨by simp [h, hx], fun hc => absurd hc hx⟩

def w4row : IndicatorRow := { defaultRow with ts := 61, close := 90 }

theorem backtest_exit_characterization_witness :
    c4state.in_position = true ∧
      (((backtestStep c4sig w4row c4state).in_position = false ↔
          c4sig.type = "SHORT" ∨ w4row.close < c4state.entry_price * (95/100)) ∧
        (c4sig.type = "SHORT" ∨ w4row.close < c4state.entry_price * (95/100) →
          (backtestStep c4sig w4row c4state).trades = closeLast c4state.trades w4row c4state.entry_price)) :=
  ⟨rfl, backtest_exit_characterization c4sig w4row c4state rfl⟩

/-! ## Claim theorems: Pattern Detector (C6, C7) -/

/-- C6 counterexample input: nineteen candles, one short of the pattern
minimum. -/
def c6candles : List Candle :=
  (List.range 19).map (fun i =>
    { ts := (i : ℤ), open_p := 1, high := 2, low := 1, close := 1, volume := 1 })

/-- C6 counterexample: on 19 candles detect_patterns silently returns the
empty list, while the error taxonomy of the spec demands an explicit
InsufficientData failure. -/
theorem patterns_silent_empty_counterexample :
    detect_patterns (some c6candles) = [] ∧
      specDetectPatterns c6candles = Except.error "InsufficientData" :=
  ⟨by with_unfolding_all rfl, by with_unfolding_all rfl⟩

/-- C6 (amended): for every candle series of fewer than 20 candles the
pattern computation returns the empty list without any error; no
InsufficientData failure exists on this path. -/
theorem patterns_short_input_empty (df : List Candle) (h : df.length < 20) :
    detect_patterns (some df) = [] := by
  simp only [detect_patterns]
  rw [if_pos h]

theorem patterns_short_input_empty_witness :
    c6candles.length < 20 ∧ detect_patterns (some c6candles) = [] :=
  ⟨by decide, patterns_short_input_empty c6candles (by decide)⟩

/-! ## Claim theorems: Indicator Engine on a constant series (C3) -/

/-- C3 failing input: fifty candles with constant close price 100. -/
def constCandles : List Candle :=
  (List.range 50).map (fun i =>
    { ts := (i : ℤ), open_p := 100, high := 100, low := 100, close := 100, volume := 1 })

/-- C3: on a constant close series the average gain and loss are both 0, so
rs = 0/0 is NaN on every row (the except fallback of calculate_rsi never
fires because pandas produces NaN rather than raising), every row of the
frame is dropped by dropna, and calculate_all_indicators raises instead of
returning a frame with RSI 50 and collapsed bands. -/
theorem constant_series_all_nan :
    calculate_rsi (List.replicate 50 (100 : ℚ)) 14 = List.replicate 50 none ∧
      calculate_all_indicators constCandles =
        Except.error "All data became NaN after indicator calculation" :=
  ⟨by with_unfolding_all rfl, by with_unfolding_all rfl⟩

/-! ## Claim theorems: double-top and double-bottom mirror symmetry (C7) -/

/-- The 2% relative-difference test is invariant under taking reciprocals
with the two arguments swapped, for positive inputs in ascending order:
both sides reduce to b/a - 1 < 1/50. -/
theorem relDiffBelow_one_div (a b : ℚ) (ha : 0 < a) (hab : a ≤ b) :
    relDiffBelow (1/b) (1/a) = relDiffBelow a b := by
  have hb : 0 < b := lt_of_lt_of_le ha hab
  unfold relDiffBelow
  rw [if_neg (one_div_ne_zero hb.ne'), if_neg ha.ne']
  rw [decide_eq_decide]
  have h1 : |1/b - 1/a| / (1/b) = |a - b| / a := by
    rw [abs_of_nonpos (by simpa using one_div_le_one_div_of_le ha hab),
        abs_of_nonpos (by linarith)]
    field_simp
    ring
  rw [h1]

/-- Sorting the reciprocals of a positive list ascending is reversing the
map of the reciprocal over the ascending sort. -/
theorem insertionSort_map_one_div (l : List ℚ) (h : ∀ x ∈ l, 0 < x) :
    (l.map (fun x => 1 / x)).insertionSort (· ≤ ·) =
      ((l.insertionSort (· ≤ ·)).map (fun x => 1 / x)).reverse := by
  haveI : IsAntisymm ℚ (· ≤ ·) := ⟨fun _ _ => le_antisymm⟩
  refine List.eq_of_perm_of_sorted (r := (· ≤ ·)) ?_ ?_ ?_
  · have p1 := List.perm_insertionSort (· ≤ ·) (l.map (fun x => 1 / x))
    have p2 := (List.perm_insertionSort (· ≤ ·) l).map (fun x => 1 / x)
    have p3 := List.reverse_perm ((l.insertionSort (· ≤ ·)).map (fun x => 1 / x))
    exact p1.trans (p2.symm.trans p3.symm)
  · exact List.sorted_insertionSort _ _
  · rw [List.Sorted, List.pairwise_reverse, List.pairwise_map]
    refine (List.sorted_insertionSort (· ≤ ·) l).imp_of_mem ?_
    intro a b ha hb hab
    exact one_div_le_one_div_of_le (h a ((List.mem_insertionSort (· ≤ ·)).mp ha)) hab

/-- tail(20) commutes with a pointwise candle map. -/
theorem tail20_map (f : Candle → Candle) (df : List Candle) :
    tail20 (df.map f) = (tail20 df).map f := by
  simp [tail20, List.map_drop]

/-- C7 (amended): the double-top and double-bottom detectors are mirror
images under the multiplicative mirror that replaces each candle's high by
the reciprocal of its low and vice versa; for positive price data the
mirrored detector of the swapped pattern agrees exactly with the original,
in both directions.  (Under an additive mirror the equivalence fails; see
the counterexample.) -/
theorem double_pattern_recip_mirror (df : List Candle)
    (h : ∀ c ∈ df, 0 < c.low ∧ 0 < c.high) :
    is_double_top (df.map recipMirror) = is_double_bottom df ∧
      is_double_bottom (df.map recipMirror) = is_double_top df := by
  have hmemlow : ∀ x ∈ (tail20 df).map Candle.low, 0 < x := by
    intro x hx
    rcases List.mem_map.mp hx with ⟨c, hc, rfl⟩
    exact (h c (List.mem_of_mem_drop hc)).1
  have hmemhigh : ∀ x ∈ (tail20 df).map Candle.high, 0 < x := by
    intro x hx
    rcases List.mem_map.mp hx with ⟨c, hc, rfl⟩
    exact (h c (List.mem_of_mem_drop hc)).2
  have hhigh : (tail20 (df.map recipMirror)).map Candle.high =
      ((tail20 df).map Candle.low).map (fun x => 1 / x) := by
    rw [tail20_map, List.map_map, List.map_map]
    rfl
  have hlow : (tail20 (df.map recipMirror)).map Candle.low =
      ((tail20 df).map Candle.high).map (fun x => 1 / x) := by
    rw [tail20_map, List.map_map, List.map_map]
    rfl
  constructor
  · unfold is_double_top is_double_bottom
    rw [hhigh, insertionSort_map_one_div _ hmemlow, List.reverse_reverse]
    have hsort := List.sorted_insertionSort (· ≤ ·) ((tail20 df).map Candle.low)
    cases hS : ((tail20 df).map Candle.low).insertionSort (· ≤ ·) with
    | nil => rfl
    | cons l1 tl =>
      cases tl with
      | nil => rfl
      | cons l2 rest =>
        have hl1 : 0 < l1 := by
          refine hmemlow l1 ((List.mem_insertionSort (· ≤ ·)).mp ?_)
          rw [hS]; exact List.mem_cons_self _ _
        have h12 : l1 ≤ l2 := by
          rw [hS] at hsort
          exact List.rel_of_sorted_cons hsort l2 (List.mem_cons_self _ _)
        simpa [twoHighestTest, twoLowestTest] using relDiffBelow_one_div l1 l2 hl1 h12
  · unfold is_double_top is_double_bottom
    rw [hlow, insertionSort_map_one_div _ hmemhigh, ← List.map_reverse]
    have hsort := List.sorted_insertionSort (· ≤ ·) ((tail20 df).map Candle.high)
    have hrev : List.Pairwise (fun a b => b ≤ a)
        (((tail20 df).map Candle.high).insertionSort (· ≤ ·)).reverse :=
      List.pairwise_reverse.mpr hsort
    cases hR : (((tail20 df).map Candle.high).insertionSort (· ≤ ·)).reverse with
    | nil => rfl
    | cons h2 tl =>
      cases tl with
      | nil => rfl
      | cons h1 rest =>
        have hh1 : 0 < h1 := by
          refine hmemhigh h1 ((List.mem_insertionSort (· ≤ ·)).mp ?_)
          rw [← List.mem_reverse, hR]
          exact List.mem_cons_of_mem _ (List.mem_cons_self _ _)
        have h12 : h1 ≤ h2 := by
          rw [hR] at hrev
          exact (List.pairwise_cons.mp hrev).1 h1 (List.mem_cons_self _ _)
        simpa [twoHighestTest, twoLowestTest] using relDiffBelow_one_div h1 h2 hh1 h12

/-- C7 input: twenty candles with lows 100, 200, ..., 2000 and constant
highs 1000. -/
def c7candles : List Candle :=
  (List.range 20).map (fun i =>
    { ts := (i : ℤ), open_p := 1000, high := 1000,
      low := 100 * ((i : ℚ) + 1), close := 500, volume := 1 })

/-- C7 counterexample: under the natural additive mirror (negation, which
makes the low array play the role of the high array), the mirrored data
shows a double top while the original shows no double bottom: the 2%
test's relative normalization is not preserved by an additive mirror. -/
theorem mirror_symmetry_negation_counterexample :
    is_double_bottom c7candles = false ∧
      is_double_top (c7candles.map negMirror) = true :=
  ⟨by with_unfolding_all rfl, by with_unfolding_all rfl⟩

theorem double_pattern_recip_mirror_witness :
    (∀ c ∈ c7candles, 0 < c.low ∧ 0 < c.high) ∧
      (is_double_top (c7candles.map recipMirror) = is_double_bottom c7candles ∧
        is_double_bottom (c7candles.map recipMirror) = is_double_top c7candles) :=
  ⟨of_decide_eq_true (by with_unfolding_all rfl),
   double_pattern_recip_mirror c7candles (of_decide_eq_true (by with_unfolding_all rfl))⟩

/-! ## Claim theorems: backtest aggregation invariants (C5) -/

/-- Every recorded pnl percentage is an exact multiple of 1/100, because
the loop writes it through round(x, 2). -/
def pnlOk (t : Trade) : Prop := ∀ p, t.pnl_percent = some p → ∃ n : ℤ, p = (n : ℚ) / 100

/-- Closing the last trade writes a rounded pnl, preserving the
multiple-of-1/100 invariant. -/
theorem closeLast_pnlOk (trades : List Trade) (row : IndicatorRow) (e : ℚ)
    (h : ∀ t ∈ trades, pnlOk t) : ∀ t ∈ closeLast trades row e, pnlOk t := by
  unfold closeLast
  cases hl : trades.getLast? with
  | none => exact h
  | some t0 =>
    intro t ht
    rcases List.mem_append.mp ht with hmem | hmem
    · exact h t (List.mem_of_mem_dropLast hmem)
    · rcases List.mem_singleton.mp hmem with rfl
      intro p hp
      simp only [Option.some.injEq] at hp
      exact ⟨round ((row.close - e) / e * 100 * 100), by rw [← hp]; rfl⟩

/-- One state-machine step preserves the pnl invariant: an opened trade
has no pnl yet and a closed one gets a rounded pnl. -/
theorem backtestStep_pnlOk (sig : Signal) (row : IndicatorRow) (st : BTState)
    (h : ∀ t ∈ st.trades, pnlOk t) : ∀ t ∈ (backtestStep sig row st).trades, pnlOk t := by
  unfold backtestStep
  split_ifs
  · intro t ht
    rcases List.mem_append.mp ht with hmem | hmem
    · exact h t hmem
    · rcases List.mem_singleton.mp hmem with rfl
      intro p hp
      simp at hp
  · exact closeLast_pnlOk st.trades row st.entry_price h
  · exact h
  · exact h

/-- The folded loop preserves the pnl invariant from any starting state. -/
theorem backtestFold_pnlOk (dfI : List IndicatorRow) (l : List ℕ) (st : BTState)
    (h : ∀ t ∈ st.trades, pnlOk t) :
    ∀ t ∈ (l.foldl (backtestLoopStep dfI) st).trades, pnlOk t := by
  induction l generalizing st with
  | nil => exact h
  | cons i tl ih =>
    refine ih _ ?_
    unfold backtestLoopStep
    cases dfI[i]? with
    | none => exact h
    | some row => exact backtestStep_pnlOk _ row st h

/-- All trades produced by the backtest loop carry pnl values that are
multiples of 1/100. -/
theorem backtestLoop_pnlOk (dfI : List IndicatorRow) :
    ∀ t ∈ backtestLoop dfI, pnlOk t := by
  unfold backtestLoop
  exact backtestFold_pnlOk dfI _ _ (by intro t ht; simp at ht)

/-- Summing pnl with default 0 over all trades equals summing over the
closed trades: open trades contribute nothing. -/
theorem sum_getD_eq_closed (l : List Trade) :
    (l.map (fun t => t.pnl_percent.getD 0)).sum =
      ((l.filter isClosed).map (fun t => t.pnl_percent.getD 0)).sum := by
  induction l with
  | nil => rfl
  | cons t tl ih =>
    cases hp : t.pnl_percent with
    | none =>
      simp [List.filter_cons, isClosed, hp, ih]
    | some p =>
      simp [List.filter_cons, isClosed, hp, ih]

/-- A sum of pnl values that are multiples of 1/100 is itself a multiple
of 1/100. -/
theorem sum_getD_div100 (l : List Trade) (h : ∀ t ∈ l, pnlOk t) :
    ∃ m : ℤ, (l.map (fun t => t.pnl_percent.getD 0)).sum = (m : ℚ) / 100 := by
  induction l with
  | nil => exact ⟨0, by norm_num⟩
  | cons t tl ih =>
    rcases ih (fun t' ht' => h t' (List.mem_cons_of_mem _ ht')) with ⟨m, hm⟩
    cases hp : t.pnl_percent with
    | none => exact ⟨m, by simp [hp, hm]⟩
    | some p =>
      rcases h t (List.mem_cons_self _ _) p hp with ⟨n, rfl⟩
      exact ⟨n + m, by push_cast; simp [hp, hm]; ring⟩

/-- round(x, 2) is the identity on exact multiples of 1/100. -/
theorem roundTo2_div100 (m : ℤ) : roundTo2 ((m : ℚ) / 100) = (m : ℚ) / 100 := by
  unfold roundTo2
  rw [div_mul_cancel₀ _ (by norm_num : (100 : ℚ) ≠ 0), round_intCast]

/-- Rounding to the nearest integer is monotone. -/
theorem round_le_round (a b : ℚ) (hab : a ≤ b) : round a ≤ round b := by
  rw [round_eq, round_eq]
  exact Int.floor_le_floor (by linarith)

/-- round(x, 2) of a nonnegative value is nonnegative. -/
theorem roundTo2_nonneg (q : ℚ) (h : 0 ≤ q) : 0 ≤ roundTo2 q := by
  unfold roundTo2
  have : round (0 : ℚ) ≤ round (q * 100) := round_le_round _ _ (by linarith)
  rw [show round (0 : ℚ) = 0 by norm_num] at this
  exact div_nonneg (by exact_mod_cast this) (by norm_num)

/-- round(x, 2) of a value at most 100 is at most 100. -/
theorem roundTo2_le_hundred (q : ℚ) (h : q ≤ 100) : roundTo2 q ≤ 100 := by
  unfold roundTo2
  have h1 : round (q * 100) ≤ round ((10000 : ℤ) : ℚ) :=
    round_le_round _ _ (by push_cast; linarith)
  rw [round_intCast] at h1
  rw [div_le_iff (by norm_num : (0 : ℚ) < 100)]
  exact_mod_cast le_trans h1 (by norm_num)

/-- A winning trade is closed. -/
theorem isWinning_isClosed (t : Trade) (h : isWinning t = true) : isClosed t = true := by
  unfold isWinning at h
  unfold isClosed
  cases hp : t.pnl_percent with
  | none => rw [hp] at h; simp at h
  | some p => simp [hp]

/-- The reported win rate always lies between 0 and 100. -/
theorem backtestStats_win_rate_bounds (trades : List Trade) :
    0 ≤ (backtestStats trades).win_rate ∧ (backtestStats trades).win_rate ≤ 100 := by
  have hwl : (trades.filter isWinning).length ≤ (trades.filter isClosed).length := by
    rw [← List.countP_eq_length_filter, ← List.countP_eq_length_filter]
    exact List.countP_mono_left (fun t _ => isWinning_isClosed t)
  simp only [backtestStats]
  constructor
  · apply roundTo2_nonneg
    split_ifs with ht
    · positivity
    · exact le_refl 0
  · apply roundTo2_le_hundred
    split_ifs with ht
    · rw [div_mul_eq_mul_div, div_le_iff (by exact_mod_cast ht)]
      have hq : ((trades.filter isWinning).length : ℚ) ≤ (trades.filter isClosed).length := by
        exact_mod_cast hwl
      linarith
    · norm_num

/-- C5 witness input: 100 candles, constant close 100 for the first 80 and
then strictly rising, so the indicator frame is short and the loop closes
no trades; the backtest succeeds with the empty aggregate. -/
def w5candles : List Candle :=
  (List.range 100).map (fun i =>
    { ts := (i : ℤ), open_p := 100, high := 100, low := 100,
      close := if i < 80 then (100 : ℚ) else 100 + ((i : ℚ) - 79), volume := 1 })

def w5res : BTResult :=
  { total_trades := 0, winning_trades := 0, losing_trades := 0,
    win_rate := 0, total_pnl_percent := 0, trades := [] }


/-- C5: every successful backtest run satisfies the aggregation
invariants: the number of opened trades (all entries of the internal trade
list) is at least the number of closed ones, the win rate lies in [0, 100],
and total_pnl_percent equals the sum of the closed trades' recorded
pnl_percent values exactly (open trades contribute nothing, and the final
round(x, 2) is the identity on a sum of 2-decimal values). -/
theorem backtest_invariants (candles : List Candle) (res : BTResult)
    (h : backtest candles = Except.ok res) :
    ∃ dfI, calculate_all_indicators candles = Except.ok dfI ∧
      res = backtestStats (backtestLoop dfI) ∧
      ((backtestLoop dfI).filter isClosed).length ≤ (backtestLoop dfI).length ∧
      0 ≤ res.win_rate ∧ res.win_rate ≤ 100 ∧
      res.total_pnl_percent =
        (((backtestLoop dfI).filter isClosed).map (fun t => t.pnl_percent.getD 0)).sum := by
  unfold backtest at h
  split_ifs at h
  cases hcalc : calculate_all_indicators candles with
  | error e => rw [hcalc] at h; cases h
  | ok dfI =>
    rw [hcalc] at h
    have hres : backtestStats (backtestLoop dfI) = res := Except.ok.inj h
    subst hres
    refine ⟨dfI, rfl, rfl, List.length_filter_le _ _,
      (backtestStats_win_rate_bounds _).1, (backtestStats_win_rate_bounds _).2, ?_⟩
    rcases sum_getD_div100 (backtestLoop dfI) (backtestLoop_pnlOk dfI) with ⟨m, hm⟩
    rw [sum_getD_eq_closed] at hm
    have hstats : (backtestStats (backtestLoop dfI)).total_pnl_percent =
        roundTo2 (((backtestLoop dfI).map (fun t => t.pnl_percent.getD 0)).sum) := rfl
    rw [hstats, sum_getD_eq_closed, hm, roundTo2_div100]

set_option maxRecDepth 4000 in
theorem backtest_invariants_witness :
    backtest w5candles = Except.ok w5res ∧
      (∃ dfI, calculate_all_indicators w5candles = Except.ok dfI ∧
        w5res = backtestStats (backtestLoop dfI) ∧
        ((backtestLoop dfI).filter isClosed).length ≤ (backtestLoop dfI).length ∧
        0 ≤ w5res.win_rate ∧ w5res.win_rate ≤ 100 ∧
        w5res.total_pnl_percent =
          (((backtestLoop dfI).filter isClosed).map (fun t => t.pnl_percent.getD 0)).sum) := by
  have hpf : backtest w5candles = Except.ok w5res := by with_unfolding_all rfl
  exact ⟨hpf, backtest_invariants w5candles w5res hpf⟩
